import Mathlib

/-!
# Verification of SLURM's pluggable-authentication dispatch core

A shallow embedding of `src/common/slurm_auth.c` (slurm_auth context
creation/destruction, lazy global initialization, and the nine-capability
dispatch tables) together with theorems settling the spec's claims.

Modelling conventions:
* C pointers are `Option` values with `none` playing the role of `NULL`.
* Credentials, plugin-rack handles, plugin handles, buffers and FILE sinks
  are opaque in the C layer, so they are modelled as abstract `Nat` tags
  wrapped in `Option` (for nullability).
* A mechanism capability (a plugin function pointer) is modelled as an
  `Option` of a pure return-behaviour function; `none` is a NULL function
  pointer.  Invoking a capability is recorded in a call log, and
  dereferencing a NULL function pointer is the distinguished outcome
  `DispatchResult.nullDeref` (undefined behaviour / crash in C).
* External collaborators that are not part of this source file (plugrack,
  plugin symbol resolution, configuration reading) are modelled from the
  spec as explicit environment records; each such definition carries a
  `Modelled from the spec:` doc comment.
-/

/-- Credential handle (`void *cred`); `none` is the NULL pointer. -/
abbrev Cred := Option Nat

/-- Transport buffer handle (`Buf buf`); `none` is the NULL pointer. -/
abbrev Buf := Option Nat

/-- Diagnostic sink handle (`FILE *fp`); `none` is the NULL pointer. -/
abbrev File := Option Nat

/-- `SLURM_SUCCESS` (from the slurm headers, not part of this file): 0. -/
def SLURM_SUCCESS : Int := 0

/-- `SLURM_ERROR` (from the slurm headers, not part of this file): -1. -/
def SLURM_ERROR : Int := -1

/-- `SLURM_AUTH_NOBODY`, the nobody-sentinel uid/gid (from slurm_auth.h,
not part of this file); its concrete value is immaterial to the claims. -/
def SLURM_AUTH_NOBODY : Nat := 99

/-- A record of one invocation of a mechanism capability, with the
arguments the dispatch layer handed to the plugin function pointer. -/
inductive CapCall where
  | alloc
  | free (cred : Cred)
  | activate (cred : Cred) (secs : Int)
  | verify (cred : Cred)
  | get_uid (cred : Cred)
  | get_gid (cred : Cred)
  | pack (cred : Cred) (buf : Buf)
  | unpack (cred : Cred) (buf : Buf)
  | print (cred : Cred) (fp : File)
deriving DecidableEq

/-- Outcome of one dispatch call: either a returned value together with the
log of mechanism capabilities invoked during the call, or a dereference of
a NULL function pointer (undefined behaviour / crash in the C source). -/
inductive DispatchResult (α : Type) where
  | ok (val : α) (calls : List CapCall)
  | nullDeref
deriving DecidableEq

/-- `slurm_auth_ops_t`: the table of nine capability slots resolved from an
authentication plugin (the fixed, order-sensitive ABI of slurm_auth.c).
Each slot is `none` when the corresponding function pointer is NULL;
a populated slot carries the mechanism's return behaviour as a pure
function of the arguments the dispatcher passes. -/
structure slurm_auth_ops where
  alloc : Option (Unit → Option Nat)
  free : Option (Cred → Unit)
  activate : Option (Cred → Int → Int)
  verify : Option (Cred → Int)
  get_uid : Option (Cred → Nat)
  get_gid : Option (Cred → Nat)
  pack : Option (Cred → Buf → Unit)
  unpack : Option (Cred → Buf → Int)
  print : Option (Cred → File → Unit)

/-- Number of populated capability slots in an operation table. -/
def slurm_auth_ops.populatedCount (o : slurm_auth_ops) : Nat :=
  (if o.alloc.isSome then 1 else 0) +
  (if o.free.isSome then 1 else 0) +
  (if o.activate.isSome then 1 else 0) +
  (if o.verify.isSome then 1 else 0) +
  (if o.get_uid.isSome then 1 else 0) +
  (if o.get_gid.isSome then 1 else 0) +
  (if o.pack.isSome then 1 else 0) +
  (if o.unpack.isSome then 1 else 0) +
  (if o.print.isSome then 1 else 0)

/-- The all-NULL operation table: the state of `c->ops` in a freshly
`xmalloc`ed (zero-filled) context before any resolution. -/
def emptyOps : slurm_auth_ops :=
  ⟨none, none, none, none, none, none, none, none, none⟩

/-- `struct slurm_auth_context`: auth type string, demand-loaded plugin
rack (`none` until first resolution), current plugin handle (`none` is
`PLUGIN_INVALID_HANDLE`), and the operation table. -/
structure slurm_auth_context where
  auth_type : String
  plugin_list : Option Nat
  cur_plugin : Option Nat
  ops : slurm_auth_ops

/-- `slurm_auth_context_create(auth_type)`: rejects a NULL `auth_type`
(returning NULL); otherwise allocates a zero-filled context holding a copy
of the string, with no plugin rack and the invalid plugin handle.  (The C
`strdup` out-of-memory path is not modelled; allocation succeeds.) -/
def slurm_auth_context_create (auth_type : Option String) :
    Option slurm_auth_context :=
  match auth_type with
  | none => none
  | some t =>
    some { auth_type := t, plugin_list := none, cur_plugin := none,
           ops := emptyOps }

/-!
## Explicit-context dispatch (`c_slurm_auth_*`)

Each function mirrors the C body statement by statement: the NULL-argument
checks, then the test of a function-pointer slot, then the forwarded call
(recorded in the call log) or the defined sentinel.  Note that
`c_slurm_auth_get_uid` and `c_slurm_auth_get_gid` test `c->ops.verify`
before dereferencing `c->ops.get_uid` / `c->ops.get_gid`, exactly as the
source does.
-/

/-- `c_slurm_auth_alloc(c)` of slurm_auth.c. -/
def c_slurm_auth_alloc (c : Option slurm_auth_context) :
    DispatchResult (Option Nat) :=
  match c with
  | none => .ok none []
  | some c =>
    match c.ops.alloc with
    | some f => .ok (f ()) [.alloc]
    | none => .ok none []

/-- `c_slurm_auth_free(c, cred)` of slurm_auth.c. -/
def c_slurm_auth_free (c : Option slurm_auth_context) (cred : Cred) :
    DispatchResult Unit :=
  match c, cred with
  | none, _ => .ok () []
  | _, none => .ok () []
  | some c, some n =>
    match c.ops.free with
    | some f => .ok (f (some n)) [.free (some n)]
    | none => .ok () []

/-- `c_slurm_auth_activate(c, cred, secs)` of slurm_auth.c. -/
def c_slurm_auth_activate (c : Option slurm_auth_context) (cred : Cred)
    (secs : Int) : DispatchResult Int :=
  match c, cred with
  | none, _ => .ok SLURM_ERROR []
  | _, none => .ok SLURM_ERROR []
  | some c, some n =>
    match c.ops.activate with
    | some f => .ok (f (some n) secs) [.activate (some n) secs]
    | none => .ok SLURM_ERROR []

/-- `c_slurm_auth_verify(c, cred)` of slurm_auth.c. -/
def c_slurm_auth_verify (c : Option slurm_auth_context) (cred : Cred) :
    DispatchResult Int :=
  match c, cred with
  | none, _ => .ok SLURM_ERROR []
  | _, none => .ok SLURM_ERROR []
  | some c, some n =>
    match c.ops.verify with
    | some f => .ok (f (some n)) [.verify (some n)]
    | none => .ok SLURM_ERROR []

/-- `c_slurm_auth_get_uid(c, cred)` of slurm_auth.c.  Faithful to the
source: the guarded slot is `c->ops.verify`, and `c->ops.get_uid` is then
dereferenced unconditionally. -/
def c_slurm_auth_get_uid (c : Option slurm_auth_context) (cred : Cred) :
    DispatchResult Nat :=
  match c, cred with
  | none, _ => .ok SLURM_AUTH_NOBODY []
  | _, none => .ok SLURM_AUTH_NOBODY []
  | some c, some n =>
    match c.ops.verify with
    | some _ =>
      match c.ops.get_uid with
      | some f => .ok (f (some n)) [.get_uid (some n)]
      | none => .nullDeref
    | none => .ok SLURM_AUTH_NOBODY []

/-- `c_slurm_auth_get_gid(c, cred)` of slurm_auth.c.  Faithful to the
source: the guarded slot is `c->ops.verify`, and `c->ops.get_gid` is then
dereferenced unconditionally. -/
def c_slurm_auth_get_gid (c : Option slurm_auth_context) (cred : Cred) :
    DispatchResult Nat :=
  match c, cred with
  | none, _ => .ok SLURM_AUTH_NOBODY []
  | _, none => .ok SLURM_AUTH_NOBODY []
  | some c, some n =>
    match c.ops.verify with
    | some _ =>
      match c.ops.get_gid with
      | some f => .ok (f (some n)) [.get_gid (some n)]
      | none => .nullDeref
    | none => .ok SLURM_AUTH_NOBODY []

/-- `c_slurm_auth_pack(c, cred, buf)` of slurm_auth.c. -/
def c_slurm_auth_pack (c : Option slurm_auth_context) (cred : Cred)
    (buf : Buf) : DispatchResult Unit :=
  match c, cred, buf with
  | none, _, _ => .ok () []
  | _, none, _ => .ok () []
  | _, _, none => .ok () []
  | some c, some n, some b =>
    match c.ops.pack with
    | some f => .ok (f (some n) (some b)) [.pack (some n) (some b)]
    | none => .ok () []

/-- `c_slurm_auth_unpack(c, cred, buf)` of slurm_auth.c. -/
def c_slurm_auth_unpack (c : Option slurm_auth_context) (cred : Cred)
    (buf : Buf) : DispatchResult Int :=
  match c, cred, buf with
  | none, _, _ => .ok SLURM_ERROR []
  | _, none, _ => .ok SLURM_ERROR []
  | _, _, none => .ok SLURM_ERROR []
  | some c, some n, some b =>
    match c.ops.unpack with
    | some f => .ok (f (some n) (some b)) [.unpack (some n) (some b)]
    | none => .ok SLURM_ERROR []

/-- `c_slurm_auth_print(c, cred, fp)` of slurm_auth.c. -/
def c_slurm_auth_print (c : Option slurm_auth_context) (cred : Cred)
    (fp : File) : DispatchResult Unit :=
  match c, cred, fp with
  | none, _, _ => .ok () []
  | _, none, _ => .ok () []
  | _, _, none => .ok () []
  | some c, some n, some p =>
    match c.ops.print with
    | some f => .ok (f (some n) (some p)) [.print (some n) (some p)]
    | none => .ok () []

/-!
## External collaborators and the configuration cache
-/

/-- `slurm_ctl_conf_t` as used by this file: the daemon port (zero in the
zero-initialized static `conf`, used as the "not yet loaded" marker), the
plugin search directory and the authentication type (each `none` when the
configuration omits it / before loading). -/
structure slurm_ctl_conf where
  slurmd_port : Nat
  plugindir : Option String
  authtype : Option String
deriving DecidableEq

/-- The zero-initialized static `conf` of slurm_auth.c. -/
def conf0 : slurm_ctl_conf := { slurmd_port := 0, plugindir := none, authtype := none }

/-- Modelled from the spec: the external configuration-loading collaborator
(`read_slurm_conf_ctl` lives in read_config.c, which is not part of this
source file).  It supplies the values a load of the configuration file
produces: the daemon port and the possibly-omitted (`none`) plugin
directory and authentication type. -/
structure ConfEnv where
  slurmd_port : Nat
  plugindir : Option String
  authtype : Option String

/-- Modelled from the spec: `read_slurm_conf_ctl(&conf)` overwrites the
configuration cache with the loaded values. -/
def read_slurm_conf_ctl (env : ConfEnv) : slurm_ctl_conf :=
  { slurmd_port := env.slurmd_port, plugindir := env.plugindir,
    authtype := env.authtype }

/-- `get_plugin_dir()` of slurm_auth.c: under `config_lock`, load the
configuration if `conf.slurmd_port` is still zero, default the plugin
directory to `/usr/local/lib` if the configuration omitted it, and return
the cached value.  Returns the value together with the updated cache. -/
def get_plugin_dir (env : ConfEnv) (conf : slurm_ctl_conf) :
    Option String × slurm_ctl_conf :=
  let conf := if conf.slurmd_port = 0 then read_slurm_conf_ctl env else conf
  let conf := if conf.plugindir = none
              then { conf with plugindir := some "/usr/local/lib" }
              else conf
  (conf.plugindir, conf)

/-- `get_auth_type()` of slurm_auth.c: under `config_lock`, load the
configuration if `conf.slurmd_port` is still zero, default the
authentication type to `auth/none` if the configuration omitted it, and
return the cached value.  Returns the value together with the updated
cache. -/
def get_auth_type (env : ConfEnv) (conf : slurm_ctl_conf) :
    Option String × slurm_ctl_conf :=
  let conf := if conf.slurmd_port = 0 then read_slurm_conf_ctl env else conf
  let conf := if conf.authtype = none
              then { conf with authtype := some "auth/none" }
              else conf
  (conf.authtype, conf)

/-- Modelled from the spec: the Plugin Registry collaborator (plugrack.c
and plugin.c are not part of this source file).
* `plugrack_create` : the rack handle a creation attempt yields, or `none`
  on failure;
* `plugin_for_type` : `plugrack_use_by_type`, the mechanism handle matching
  an auth type name, or `none` (`PLUGIN_INVALID_HANDLE`) when absent;
* `resolve` : `plugin_get_syms` on a mechanism handle writes each of the
  nine requested capability slots into the caller's table (the resolved
  pointer, or NULL for a symbol the plugin lacks) and returns the number
  resolved — modelled as the written table, whose `populatedCount` is the
  returned count;
* `rack_destroy_ok` : whether `plugrack_destroy` on a rack handle succeeds
  (it fails while plugins are still in use). -/
structure RegistryEnv where
  plugrack_create : Option Nat
  plugin_for_type : String → Option Nat
  resolve : Nat → slurm_auth_ops
  rack_destroy_ok : Nat → Bool

/-- `slurm_auth_get_ops(c)` of slurm_auth.c: demand-create the plugin rack
(scanning the configured plugin directory), find the plugin matching
`c->auth_type`, and resolve the nine symbols into `c->ops` — the table is
written before the resolved count is compared with nine, and the context
keeps whatever was written even when resolution fails.  Returns the
resolved table (`none` on failure, as the C returns NULL) together with
the mutated context and configuration cache. -/
def slurm_auth_get_ops (renv : RegistryEnv) (cenv : ConfEnv)
    (c : slurm_auth_context) (conf : slurm_ctl_conf) :
    Option slurm_auth_ops × slurm_auth_context × slurm_ctl_conf :=
  let racked : Option (slurm_auth_context × slurm_ctl_conf) :=
    match c.plugin_list with
    | some _ => some (c, conf)
    | none =>
      match renv.plugrack_create with
      | none => none
      | some rack =>
        let conf1 := (get_plugin_dir cenv conf).snd
        some ({ c with plugin_list := some rack }, conf1)
  match racked with
  | none => (none, c, conf)
  | some (c1, conf1) =>
    match renv.plugin_for_type c1.auth_type with
    | none => (none, { c1 with cur_plugin := none }, conf1)
    | some p =>
      let ops := renv.resolve p
      let c2 := { c1 with cur_plugin := some p, ops := ops }
      if ops.populatedCount < 9 then (none, c2, conf1)
      else (some ops, c2, conf1)

/-- `slurm_auth_context_destroy(c)` of slurm_auth.c: if a plugin rack
exists and `plugrack_destroy` fails, return `SLURM_ERROR` leaving the
context untouched; otherwise free the auth type string and the context
and return `SLURM_SUCCESS`.  The second component is the surviving context
(`none` once freed). -/
def slurm_auth_context_destroy (renv : RegistryEnv)
    (c : slurm_auth_context) : Int × Option slurm_auth_context :=
  match c.plugin_list with
  | some rack =>
    if renv.rack_destroy_ok rack then (SLURM_SUCCESS, none)
    else (SLURM_ERROR, some c)
  | none => (SLURM_SUCCESS, none)

/-!
## The global binding (`g_context` and `slurm_auth_init`)
-/

/-- The mutable process-wide state of slurm_auth.c: the global context
singleton `g_context` and the configuration cache `conf`. -/
structure GlobalState where
  g_context : Option slurm_auth_context
  conf : slurm_ctl_conf

/-- The process state at startup: `g_context` NULL, `conf` zero-filled. -/
def startState : GlobalState := { g_context := none, conf := conf0 }

/-- `slurm_auth_init()` of slurm_auth.c: return success immediately when
`g_context` is already set; otherwise assign
`g_context = slurm_auth_context_create(get_auth_type())` (failure leaves
it NULL and returns `SLURM_ERROR`), then run `slurm_auth_get_ops` on the
already-assigned `g_context` — a resolution failure returns `SLURM_ERROR`
with `g_context` still holding the (mutated) context. -/
def slurm_auth_init (renv : RegistryEnv) (cenv : ConfEnv)
    (s : GlobalState) : Int × GlobalState :=
  match s.g_context with
  | some _ => (SLURM_SUCCESS, s)
  | none =>
    let p1 := get_auth_type cenv s.conf
    match slurm_auth_context_create p1.fst with
    | none => (SLURM_ERROR, { g_context := none, conf := p1.snd })
    | some c =>
      let r := slurm_auth_get_ops renv cenv c p1.snd
      let s1 : GlobalState := { g_context := some r.snd.fst, conf := r.snd.snd }
      match r.fst with
      | none => (SLURM_ERROR, s1)
      | some _ => (SLURM_SUCCESS, s1)

/-!
## Ambient (global) dispatch (`g_slurm_auth_*`)

Each function mirrors the C body: if `g_context` is NULL, attempt
`slurm_auth_init` and return the degraded value when it fails; otherwise
forward through the corresponding slot of `g_context->ops` with no
function-pointer test (the source comment states the test is omitted
because global initialization validates completeness).
-/

/-- `g_slurm_auth_alloc()` of slurm_auth.c; degraded value NULL. -/
def g_slurm_auth_alloc (renv : RegistryEnv) (cenv : ConfEnv)
    (s : GlobalState) : DispatchResult (Option Nat) × GlobalState :=
  let fwd : GlobalState → DispatchResult (Option Nat) × GlobalState :=
    fun s =>
      match s.g_context with
      | some c =>
        match c.ops.alloc with
        | some f => (.ok (f ()) [.alloc], s)
        | none => (.nullDeref, s)
      | none => (.nullDeref, s)
  match s.g_context with
  | some _ => fwd s
  | none =>
    let r := slurm_auth_init renv cenv s
    if r.fst ≠ SLURM_SUCCESS then (.ok none [], r.snd) else fwd r.snd

/-- `g_slurm_auth_free(cred)` of slurm_auth.c; degraded behaviour is a
silent return.  The credential is forwarded to the mechanism unchanged,
with no NULL check. -/
def g_slurm_auth_free (renv : RegistryEnv) (cenv : ConfEnv)
    (s : GlobalState) (cred : Cred) : DispatchResult Unit × GlobalState :=
  let fwd : GlobalState → DispatchResult Unit × GlobalState :=
    fun s =>
      match s.g_context with
      | some c =>
        match c.ops.free with
        | some f => (.ok (f cred) [.free cred], s)
        | none => (.nullDeref, s)
      | none => (.nullDeref, s)
  match s.g_context with
  | some _ => fwd s
  | none =>
    let r := slurm_auth_init renv cenv s
    if r.fst ≠ SLURM_SUCCESS then (.ok () [], r.snd) else fwd r.snd

/-- `g_slurm_auth_activate(cred, secs)` of slurm_auth.c; degraded value
`SLURM_ERROR`. -/
def g_slurm_auth_activate (renv : RegistryEnv) (cenv : ConfEnv)
    (s : GlobalState) (cred : Cred) (secs : Int) :
    DispatchResult Int × GlobalState :=
  let fwd : GlobalState → DispatchResult Int × GlobalState :=
    fun s =>
      match s.g_context with
      | some c =>
        match c.ops.activate with
        | some f => (.ok (f cred secs) [.activate cred secs], s)
        | none => (.nullDeref, s)
      | none => (.nullDeref, s)
  match s.g_context with
  | some _ => fwd s
  | none =>
    let r := slurm_auth_init renv cenv s
    if r.fst ≠ SLURM_SUCCESS then (.ok SLURM_ERROR [], r.snd) else fwd r.snd

/-- `g_slurm_auth_verify(cred)` of slurm_auth.c; degraded value
`SLURM_ERROR`. -/
def g_slurm_auth_verify (renv : RegistryEnv) (cenv : ConfEnv)
    (s : GlobalState) (cred : Cred) : DispatchResult Int × GlobalState :=
  let fwd : GlobalState → DispatchResult Int × GlobalState :=
    fun s =>
      match s.g_context with
      | some c =>
        match c.ops.verify with
        | some f => (.ok (f cred) [.verify cred], s)
        | none => (.nullDeref, s)
      | none => (.nullDeref, s)
  match s.g_context with
  | some _ => fwd s
  | none =>
    let r := slurm_auth_init renv cenv s
    if r.fst ≠ SLURM_SUCCESS then (.ok SLURM_ERROR [], r.snd) else fwd r.snd

/-- `g_slurm_auth_get_uid(cred)` of slurm_auth.c; degraded value
`SLURM_AUTH_NOBODY`. -/
def g_slurm_auth_get_uid (renv : RegistryEnv) (cenv : ConfEnv)
    (s : GlobalState) (cred : Cred) : DispatchResult Nat × GlobalState :=
  let fwd : GlobalState → DispatchResult Nat × GlobalState :=
    fun s =>
      match s.g_context with
      | some c =>
        match c.ops.get_uid with
        | some f => (.ok (f cred) [.get_uid cred], s)
        | none => (.nullDeref, s)
      | none => (.nullDeref, s)
  match s.g_context with
  | some _ => fwd s
  | none =>
    let r := slurm_auth_init renv cenv s
    if r.fst ≠ SLURM_SUCCESS then (.ok SLURM_AUTH_NOBODY [], r.snd) else fwd r.snd

/-- `g_slurm_auth_get_gid(cred)` of slurm_auth.c; degraded value
`SLURM_AUTH_NOBODY`. -/
def g_slurm_auth_get_gid (renv : RegistryEnv) (cenv : ConfEnv)
    (s : GlobalState) (cred : Cred) : DispatchResult Nat × GlobalState :=
  let fwd : GlobalState → DispatchResult Nat × GlobalState :=
    fun s =>
      match s.g_context with
      | some c =>
        match c.ops.get_gid with
        | some f => (.ok (f cred) [.get_gid cred], s)
        | none => (.nullDeref, s)
      | none => (.nullDeref, s)
  match s.g_context with
  | some _ => fwd s
  | none =>
    let r := slurm_auth_init renv cenv s
    if r.fst ≠ SLURM_SUCCESS then (.ok SLURM_AUTH_NOBODY [], r.snd) else fwd r.snd

/-- `g_slurm_auth_pack(cred, buf)` of slurm_auth.c; degraded behaviour is
a silent return.  Credential and buffer are forwarded with no NULL
check. -/
def g_slurm_auth_pack (renv : RegistryEnv) (cenv : ConfEnv)
    (s : GlobalState) (cred : Cred) (buf : Buf) :
    DispatchResult Unit × GlobalState :=
  let fwd : GlobalState → DispatchResult Unit × GlobalState :=
    fun s =>
      match s.g_context with
      | some c =>
        match c.ops.pack with
        | some f => (.ok (f cred buf) [.pack cred buf], s)
        | none => (.nullDeref, s)
      | none => (.nullDeref, s)
  match s.g_context with
  | some _ => fwd s
  | none =>
    let r := slurm_auth_init renv cenv s
    if r.fst ≠ SLURM_SUCCESS then (.ok () [], r.snd) else fwd r.snd

/-- `g_slurm_auth_unpack(cred, buf)` of slurm_auth.c; degraded value
`SLURM_ERROR`. -/
def g_slurm_auth_unpack (renv : RegistryEnv) (cenv : ConfEnv)
    (s : GlobalState) (cred : Cred) (buf : Buf) :
    DispatchResult Int × GlobalState :=
  let fwd : GlobalState → DispatchResult Int × GlobalState :=
    fun s =>
      match s.g_context with
      | some c =>
        match c.ops.unpack with
        | some f => (.ok (f cred buf) [.unpack cred buf], s)
        | none => (.nullDeref, s)
      | none => (.nullDeref, s)
  match s.g_context with
  | some _ => fwd s
  | none =>
    let r := slurm_auth_init renv cenv s
    if r.fst ≠ SLURM_SUCCESS then (.ok SLURM_ERROR [], r.snd) else fwd r.snd

/-- `g_slurm_auth_print(cred, fp)` of slurm_auth.c; degraded behaviour is
a silent return.  Credential and sink are forwarded with no NULL check. -/
def g_slurm_auth_print (renv : RegistryEnv) (cenv : ConfEnv)
    (s : GlobalState) (cred : Cred) (fp : File) :
    DispatchResult Unit × GlobalState :=
  let fwd : GlobalState → DispatchResult Unit × GlobalState :=
    fun s =>
      match s.g_context with
      | some c =>
        match c.ops.print with
        | some f => (.ok (f cred fp) [.print cred fp], s)
        | none => (.nullDeref, s)
      | none => (.nullDeref, s)
  match s.g_context with
  | some _ => fwd s
  | none =>
    let r := slurm_auth_init renv cenv s
    if r.fst ≠ SLURM_SUCCESS then (.ok () [], r.snd) else fwd r.snd

/-!
## Two-thread interleaving of the lazy global initialization

`slurm_auth_init` performs the check `if (g_context) return SLURM_SUCCESS`
and the assignment-plus-resolution
`g_context = slurm_auth_context_create(get_auth_type());
slurm_auth_get_ops(g_context)` as separate program points with no lock
held between them — the only lock in the file, `config_lock`, guards just
the configuration cache inside `get_auth_type` / `get_plugin_dir`.  The
model below makes each of the two program points one atomic step (even
charitably treating the whole construct-and-resolve suffix as a single
atomic action) and counts completed context constructions and
registry/mechanism-module loads.
-/

/-- Program counter of one thread running `slurm_auth_init`:
before the `if (g_context)` check, past the check (about to construct and
resolve), or returned. -/
inductive InitPC where
  | start
  | construct
  | done
deriving DecidableEq

/-- Shared state of the race model: the `g_context` cell (abstract context
identity) plus counters of completed `slurm_auth_context_create` calls and
of completed plugin-rack creations / mechanism-module loads. -/
structure RaceState where
  g_context : Option Nat
  constructions : Nat
  loads : Nat
deriving DecidableEq

/-- One atomic step of a thread running `slurm_auth_init`: the check reads
`g_context` and either returns or proceeds; the construct step assigns a
fresh context to `g_context`, counting one construction and one module
load. -/
def initStep (pc : InitPC) (s : RaceState) : InitPC × RaceState :=
  match pc with
  | .start => if s.g_context.isSome then (.done, s) else (.construct, s)
  | .construct =>
    (.done, { g_context := some s.constructions,
              constructions := s.constructions + 1, loads := s.loads + 1 })
  | .done => (.done, s)

/-- Run a schedule over two threads executing `slurm_auth_init`
concurrently: `true` steps thread one, `false` steps thread two. -/
def runSchedule (sched : List Bool) (pc1 pc2 : InitPC) (s : RaceState) :
    InitPC × InitPC × RaceState :=
  match sched with
  | [] => (pc1, pc2, s)
  | t :: rest =>
    if t then
      let r := initStep pc1 s
      runSchedule rest r.fst pc2 r.snd
    else
      let r := initStep pc2 s
      runSchedule rest pc1 r.fst r.snd

/-- The shared state before any initialization: `g_context` NULL, nothing
constructed or loaded. -/
def raceStart : RaceState := { g_context := none, constructions := 0, loads := 0 }

/-!
## Concrete fixtures used by the claim theorems
-/

/-- A configuration environment whose file omits both the plugin directory
and the authentication type (daemon port present, as every loaded
configuration has one). -/
def cenv0 : ConfEnv := { slurmd_port := 6818, plugindir := none, authtype := none }

/-- An operation table with eight of the nine capabilities populated
(`print` missing): what `plugin_get_syms` writes for a stale or
partially-built mechanism module. -/
def ops8 : slurm_auth_ops :=
  { alloc := some (fun _ => some 7),
    free := some (fun _ => ()),
    activate := some (fun _ _ => SLURM_SUCCESS),
    verify := some (fun _ => SLURM_SUCCESS),
    get_uid := some (fun _ => 1000),
    get_gid := some (fun _ => 1000),
    pack := some (fun _ _ => ()),
    unpack := some (fun _ _ => SLURM_SUCCESS),
    print := none }

/-- A registry in which rack creation succeeds, a plugin matches every
type name, and symbol resolution finds only the eight capabilities of
`ops8`. -/
def renv8 : RegistryEnv :=
  { plugrack_create := some 1, plugin_for_type := fun _ => some 2,
    resolve := fun _ => ops8, rack_destroy_ok := fun _ => true }

/-- A registry in which plugin-rack creation fails outright. -/
def renvFail : RegistryEnv :=
  { plugrack_create := none, plugin_for_type := fun _ => none,
    resolve := fun _ => emptyOps, rack_destroy_ok := fun _ => true }

/-- A fully populated operation table (all nine capabilities). -/
def opsFull : slurm_auth_ops :=
  { alloc := some (fun _ => some 7),
    free := some (fun _ => ()),
    activate := some (fun _ _ => SLURM_SUCCESS),
    verify := some (fun _ => SLURM_SUCCESS),
    get_uid := some (fun _ => 1000),
    get_gid := some (fun _ => 1000),
    pack := some (fun _ _ => ()),
    unpack := some (fun _ _ => SLURM_SUCCESS),
    print := some (fun _ _ => ()) }

/-- A resolved context carrying the full table `opsFull`. -/
def ctxFull : slurm_auth_context :=
  { auth_type := "auth/none", plugin_list := some 1, cur_plugin := some 2,
    ops := opsFull }

/-- A global state whose singleton is initialized with `ctxFull`. -/
def sFull : GlobalState := { g_context := some ctxFull, conf := conf0 }

/-- A context whose `verify` slot is populated but whose `get_uid` and
`get_gid` slots are NULL (a partially resolved mechanism). -/
def ctx5 : slurm_auth_context :=
  { auth_type := "auth/x", plugin_list := some 0, cur_plugin := some 0,
    ops := { emptyOps with verify := some (fun _ => SLURM_SUCCESS) } }

/-!
## Claim theorems
-/

/-- Claim C1: the claim asserts that an operation table is all-or-nothing —
resolution of fewer than nine capabilities fails, and no subsequent
dispatch call through the context or the global binding can ever invoke an
operation from a table with fewer than nine populated slots.  The code
violates the second half: with a mechanism resolving eight of nine
capabilities, `slurm_auth_init` fails as required, yet it leaves
`g_context` holding the context with the eight-slot table, and a
subsequent `g_slurm_auth_alloc` invokes the `alloc` capability straight
out of that table. -/
theorem C1_partial_table_invoked_through_global_binding :
    (slurm_auth_init renv8 cenv0 startState).fst = SLURM_ERROR ∧
    ((slurm_auth_init renv8 cenv0 startState).snd.g_context.map
      (fun c => c.ops.populatedCount)) = some 8 ∧
    (g_slurm_auth_alloc renv8 cenv0
      (slurm_auth_init renv8 cenv0 startState).snd).fst
        = .ok (some 7) [.alloc] :=
  ⟨rfl, rfl, rfl⟩

/-- Claim C2: the claim asserts that whenever `slurm_auth_init` returns an
error the singleton `g_context` is left unset, so that a later call
re-attempts the construction.  The code violates this: when operation
resolution fails (eight of nine capabilities), `slurm_auth_init` returns
`SLURM_ERROR` with `g_context` still set, and the next `slurm_auth_init`
returns `SLURM_SUCCESS` over the broken context. -/
theorem C2_failed_init_leaves_singleton_set :
    (slurm_auth_init renv8 cenv0 startState).fst = SLURM_ERROR ∧
    (slurm_auth_init renv8 cenv0 startState).snd.g_context.isSome = true ∧
    (slurm_auth_init renv8 cenv0
      (slurm_auth_init renv8 cenv0 startState).snd).fst = SLURM_SUCCESS :=
  ⟨rfl, rfl, rfl⟩

/-- Claim C3: an ambient dispatch call whose initialization attempt fails
(`g_context` unset on entry and `slurm_auth_init` returning an error)
returns its defined degraded value, invokes no mechanism capability, and
does not crash: `g_slurm_auth_alloc` returns NULL; `g_slurm_auth_activate`,
`g_slurm_auth_verify` and `g_slurm_auth_unpack` return `SLURM_ERROR`;
`g_slurm_auth_get_uid` and `g_slurm_auth_get_gid` return
`SLURM_AUTH_NOBODY`; `g_slurm_auth_free`, `g_slurm_auth_pack` and
`g_slurm_auth_print` are no-ops. -/
theorem C3_ambient_degrades_when_init_fails (renv : RegistryEnv)
    (cenv : ConfEnv) (s : GlobalState)
    (h0 : s.g_context = none)
    (hf : (slurm_auth_init renv cenv s).fst ≠ SLURM_SUCCESS) :
    ∀ cred secs buf fp,
      (g_slurm_auth_alloc renv cenv s).fst = .ok none [] ∧
      (g_slurm_auth_free renv cenv s cred).fst = .ok () [] ∧
      (g_slurm_auth_activate renv cenv s cred secs).fst = .ok SLURM_ERROR [] ∧
      (g_slurm_auth_verify renv cenv s cred).fst = .ok SLURM_ERROR [] ∧
      (g_slurm_auth_get_uid renv cenv s cred).fst = .ok SLURM_AUTH_NOBODY [] ∧
      (g_slurm_auth_get_gid renv cenv s cred).fst = .ok SLURM_AUTH_NOBODY [] ∧
      (g_slurm_auth_pack renv cenv s cred buf).fst = .ok () [] ∧
      (g_slurm_auth_unpack renv cenv s cred buf).fst = .ok SLURM_ERROR [] ∧
      (g_slurm_auth_print renv cenv s cred fp).fst = .ok () [] := by
  intro cred secs buf fp
  refine ⟨?_, ?_, ?_, ?_, ?_, ?_, ?_, ?_, ?_⟩
  · simp [g_slurm_auth_alloc, h0, hf]
  · simp [g_slurm_auth_free, h0, hf]
  · simp [g_slurm_auth_activate, h0, hf]
  · simp [g_slurm_auth_verify, h0, hf]
  · simp [g_slurm_auth_get_uid, h0, hf]
  · simp [g_slurm_auth_get_gid, h0, hf]
  · simp [g_slurm_auth_pack, h0, hf]
  · simp [g_slurm_auth_unpack, h0, hf]
  · simp [g_slurm_auth_print, h0, hf]

/-- Witness for C3: in the registry `renvFail` (plugin-rack creation
fails) initialization fails from the start state, and the ambient calls
return their degraded values. -/
theorem C3_ambient_degrades_witness :
    startState.g_context = none ∧
    (slurm_auth_init renvFail cenv0 startState).fst ≠ SLURM_SUCCESS ∧
    (g_slurm_auth_alloc renvFail cenv0 startState).fst = .ok none [] ∧
    (g_slurm_auth_verify renvFail cenv0 startState none).fst
      = .ok SLURM_ERROR [] :=
  ⟨rfl, by decide,
   (C3_ambient_degrades_when_init_fails renvFail cenv0 startState rfl
     (by decide) none 0 none none).1,
   (C3_ambient_degrades_when_init_fails renvFail cenv0 startState rfl
     (by decide) none 0 none none).2.2.2.1⟩

/-- Claim C4: every explicit-context dispatch operation, called with a
NULL context, a NULL credential, or (for pack/unpack/print) a NULL buffer
or sink, returns its defined sentinel — NULL for `c_slurm_auth_alloc`,
`SLURM_ERROR` for activate/verify/unpack, `SLURM_AUTH_NOBODY` for
get_uid/get_gid, a silent no-op for free/pack/print — without invoking any
mechanism capability (empty call log). -/
theorem C4_context_dispatch_null_argument_sentinels :
    (c_slurm_auth_alloc none = .ok none []) ∧
    (∀ cred, c_slurm_auth_free none cred = .ok () []) ∧
    (∀ c, c_slurm_auth_free (some c) none = .ok () []) ∧
    (∀ cred secs, c_slurm_auth_activate none cred secs = .ok SLURM_ERROR []) ∧
    (∀ c secs, c_slurm_auth_activate (some c) none secs = .ok SLURM_ERROR []) ∧
    (∀ cred, c_slurm_auth_verify none cred = .ok SLURM_ERROR []) ∧
    (∀ c, c_slurm_auth_verify (some c) none = .ok SLURM_ERROR []) ∧
    (∀ cred, c_slurm_auth_get_uid none cred = .ok SLURM_AUTH_NOBODY []) ∧
    (∀ c, c_slurm_auth_get_uid (some c) none = .ok SLURM_AUTH_NOBODY []) ∧
    (∀ cred, c_slurm_auth_get_gid none cred = .ok SLURM_AUTH_NOBODY []) ∧
    (∀ c, c_slurm_auth_get_gid (some c) none = .ok SLURM_AUTH_NOBODY []) ∧
    (∀ cred buf, c_slurm_auth_pack none cred buf = .ok () []) ∧
    (∀ c buf, c_slurm_auth_pack (some c) none buf = .ok () []) ∧
    (∀ c cred, c_slurm_auth_pack (some c) cred none = .ok () []) ∧
    (∀ cred buf, c_slurm_auth_unpack none cred buf = .ok SLURM_ERROR []) ∧
    (∀ c buf, c_slurm_auth_unpack (some c) none buf = .ok SLURM_ERROR []) ∧
    (∀ c cred, c_slurm_auth_unpack (some c) cred none = .ok SLURM_ERROR []) ∧
    (∀ cred fp, c_slurm_auth_print none cred fp = .ok () []) ∧
    (∀ c fp, c_slurm_auth_print (some c) none fp = .ok () []) ∧
    (∀ c cred, c_slurm_auth_print (some c) cred none = .ok () []) := by
  refine ⟨rfl, ?_, ?_, ?_, ?_, ?_, ?_, ?_, ?_, ?_, ?_, ?_, ?_, ?_, ?_, ?_,
          ?_, ?_, ?_, ?_⟩
  · intro cred; cases cred <;> rfl
  · intro c; rfl
  · intro cred secs; cases cred <;> rfl
  · intro c secs; rfl
  · intro cred; cases cred <;> rfl
  · intro c; rfl
  · intro cred; cases cred <;> rfl
  · intro c; rfl
  · intro cred; cases cred <;> rfl
  · intro c; rfl
  · intro cred buf; cases cred <;> cases buf <;> rfl
  · intro c buf; cases buf <;> rfl
  · intro c cred; cases cred <;> rfl
  · intro cred buf; cases cred <;> cases buf <;> rfl
  · intro c buf; cases buf <;> rfl
  · intro c cred; cases cred <;> rfl
  · intro cred fp; cases cred <;> cases fp <;> rfl
  · intro c fp; cases fp <;> rfl
  · intro c cred; cases cred <;> rfl

/-- Claim C5: the claim asserts that a dispatch call whose own capability
slot is absent returns its sentinel and never invokes a missing
capability; in particular `c_slurm_auth_get_uid` / `c_slurm_auth_get_gid`
return `SLURM_AUTH_NOBODY` whenever their own slot is unpopulated.  The
code violates this: both functions test the `verify` slot instead of their
own, so on a context whose `verify` slot is populated but whose `get_uid`
and `get_gid` slots are NULL, the call dereferences the NULL function
pointer (a crash), not the nobody sentinel. -/
theorem C5_get_uid_guard_tests_verify_slot :
    ctx5.ops.get_uid = none ∧
    ctx5.ops.get_gid = none ∧
    ctx5.ops.verify.isSome = true ∧
    c_slurm_auth_get_uid (some ctx5) (some 1) = .nullDeref ∧
    c_slurm_auth_get_gid (some ctx5) (some 1) = .nullDeref :=
  ⟨rfl, rfl, rfl, rfl, rfl⟩

/-- Counterexample for claim C6: the claim asserts that
`slurm_auth_context_create` called with the empty string always fails.
The code only rejects NULL: `slurm_auth_context_create("")` returns a
context. -/
theorem C6_empty_type_accepted :
    (slurm_auth_context_create (some "")).isSome = true :=
  rfl

/-- Claim C6 (amended): `slurm_auth_context_create` called with a NULL
auth_type fails (returns no context); for every non-NULL auth_type —
including the empty string, which is not rejected — it returns a context
holding a copy of the string, whose registry handle is not yet created
(`plugin_list` NULL), with the invalid plugin handle and an empty
operation table. -/
theorem C6_create_rejects_null_only :
    slurm_auth_context_create none = none ∧
    ∀ s : String, slurm_auth_context_create (some s) =
      some { auth_type := s, plugin_list := none, cur_plugin := none,
             ops := emptyOps } :=
  ⟨rfl, fun _ => rfl⟩

/-- Counterexample for claim C7: the claim asserts that when the
configuration omits the authentication type, it defaults to the string
`none`.  The code defaults it to `auth/none`. -/
theorem C7_default_type_is_not_none :
    (get_auth_type cenv0 conf0).fst = some "auth/none" ∧
    (get_auth_type cenv0 conf0).fst ≠ some "none" :=
  ⟨rfl, by decide⟩

/-- Claim C7 (amended): when the cached configuration omits a value, the
global binding substitutes the documented defaults exactly once — the
authentication type defaults to `auth/none` and the mechanism search path
to `/usr/local/lib` — and every later call to `get_auth_type` /
`get_plugin_dir` returns the same cached value with the cache unchanged
(no re-read of the configuration). -/
theorem C7_defaults_substituted_once_and_cached (env : ConfEnv)
    (hport : env.slurmd_port ≠ 0)
    (ha : env.authtype = none) (hp : env.plugindir = none) :
    (get_auth_type env conf0).fst = some "auth/none" ∧
    (get_plugin_dir env conf0).fst = some "/usr/local/lib" ∧
    (get_auth_type env (get_auth_type env conf0).snd
      = (some "auth/none", (get_auth_type env conf0).snd)) ∧
    (get_plugin_dir env (get_plugin_dir env conf0).snd
      = (some "/usr/local/lib", (get_plugin_dir env conf0).snd)) ∧
    (get_plugin_dir env (get_plugin_dir env (get_auth_type env conf0).snd).snd
      = (some "/usr/local/lib",
         (get_plugin_dir env (get_auth_type env conf0).snd).snd)) ∧
    (get_auth_type env (get_plugin_dir env (get_auth_type env conf0).snd).snd
      = (some "auth/none",
         (get_plugin_dir env (get_auth_type env conf0).snd).snd)) := by
  refine ⟨?_, ?_, ?_, ?_, ?_, ?_⟩ <;>
    simp [get_auth_type, get_plugin_dir, read_slurm_conf_ctl, conf0,
          ha, hp, hport]

/-- Witness for C7 (amended): the configuration environment `cenv0` omits
both values; the defaults are substituted and the second read is served
from the cache unchanged. -/
theorem C7_defaults_substituted_once_witness :
    cenv0.slurmd_port ≠ 0 ∧
    cenv0.authtype = none ∧
    cenv0.plugindir = none ∧
    (get_auth_type cenv0 conf0).fst = some "auth/none" ∧
    (get_auth_type cenv0 (get_auth_type cenv0 conf0).snd
      = (some "auth/none", (get_auth_type cenv0 conf0).snd)) :=
  ⟨by decide, rfl, rfl,
   (C7_defaults_substituted_once_and_cached cenv0 (by decide) rfl rfl).1,
   (C7_defaults_substituted_once_and_cached cenv0 (by decide) rfl rfl).2.2.1⟩

/-- Claim C8: the claim asserts that under concurrent first use, the lazy
construction sequence of the global binding executes at most once.  The
code has no lock around the `if (g_context)` check and the construction in
`slurm_auth_init` (`config_lock` guards only the configuration cache), so
two threads that both pass the check before either constructs perform two
context constructions and two registry/mechanism-module loads — even when
the whole construct-and-resolve suffix is treated as one atomic step. -/
theorem C8_unguarded_first_use_constructs_twice :
    (runSchedule [true, false, true, false] .start .start raceStart).snd.snd
      = { g_context := some 1, constructions := 2, loads := 2 } ∧
    ¬ (runSchedule [true, false, true, false] .start .start
        raceStart).snd.snd.constructions = 1 := by
  decide

/-- Claim C9: when `slurm_auth_context_destroy` fails because the plugin
rack cannot be released (`plugrack_destroy` reporting plugins still
loaded), it returns `SLURM_ERROR` and leaves the context — its auth type
string, registry handle and operation table — unmodified and unfreed, so
destroy can be retried on the same context. -/
theorem C9_failed_destroy_preserves_context (renv : RegistryEnv)
    (c : slurm_auth_context) (rack : Nat)
    (h1 : c.plugin_list = some rack)
    (h2 : renv.rack_destroy_ok rack = false) :
    slurm_auth_context_destroy renv c = (SLURM_ERROR, some c) := by
  simp [slurm_auth_context_destroy, h1, h2]

/-- A registry whose plugin rack refuses to be destroyed (plugins still
in use). -/
def renvBusy : RegistryEnv :=
  { plugrack_create := some 5, plugin_for_type := fun _ => some 0,
    resolve := fun _ => emptyOps, rack_destroy_ok := fun _ => false }

/-- A context owning plugin rack 5, to be destroyed under `renvBusy`. -/
def ctx9 : slurm_auth_context :=
  { auth_type := "auth/none", plugin_list := some 5, cur_plugin := none,
    ops := emptyOps }

/-- Witness for C9: destroying `ctx9` while its rack refuses destruction
returns `SLURM_ERROR` with the context intact. -/
theorem C9_failed_destroy_witness :
    ctx9.plugin_list = some 5 ∧
    renvBusy.rack_destroy_ok 5 = false ∧
    slurm_auth_context_destroy renvBusy ctx9 = (SLURM_ERROR, some ctx9) :=
  ⟨rfl, rfl, C9_failed_destroy_preserves_context renvBusy ctx9 5 rfl rfl⟩

/-- Claim C10: once the global binding is initialized, every credential-
taking ambient operation forwards its credential (and buffer/sink)
arguments to the mechanism capability unconditionally — in particular
`g_slurm_auth_free`, `g_slurm_auth_pack` and `g_slurm_auth_print` pass a
NULL credential or NULL buffer/sink straight through to the mechanism
(the call log records the capability invoked with the NULL argument),
unlike their explicit-context counterparts, which no-op on NULL without
invoking anything. -/
theorem C10_ambient_forwards_null_arguments (renv : RegistryEnv)
    (cenv : ConfEnv) (s : GlobalState) (c : slurm_auth_context)
    (ffree : Cred → Unit) (fact : Cred → Int → Int) (fver : Cred → Int)
    (fuid : Cred → Nat) (fgid : Cred → Nat) (fpck : Cred → Buf → Unit)
    (funp : Cred → Buf → Int) (fprt : Cred → File → Unit)
    (hg : s.g_context = some c)
    (h1 : c.ops.free = some ffree) (h2 : c.ops.activate = some fact)
    (h3 : c.ops.verify = some fver) (h4 : c.ops.get_uid = some fuid)
    (h5 : c.ops.get_gid = some fgid) (h6 : c.ops.pack = some fpck)
    (h7 : c.ops.unpack = some funp) (h8 : c.ops.print = some fprt) :
    (g_slurm_auth_free renv cenv s none = (.ok () [.free none], s)) ∧
    (∀ secs, g_slurm_auth_activate renv cenv s none secs
      = (.ok (fact none secs) [.activate none secs], s)) ∧
    (g_slurm_auth_verify renv cenv s none
      = (.ok (fver none) [.verify none], s)) ∧
    (g_slurm_auth_get_uid renv cenv s none
      = (.ok (fuid none) [.get_uid none], s)) ∧
    (g_slurm_auth_get_gid renv cenv s none
      = (.ok (fgid none) [.get_gid none], s)) ∧
    (∀ buf, g_slurm_auth_pack renv cenv s none buf
      = (.ok () [.pack none buf], s)) ∧
    (g_slurm_auth_pack renv cenv s (some 1) none
      = (.ok () [.pack (some 1) none], s)) ∧
    (∀ buf, g_slurm_auth_unpack renv cenv s none buf
      = (.ok (funp none buf) [.unpack none buf], s)) ∧
    (∀ fp, g_slurm_auth_print renv cenv s none fp
      = (.ok () [.print none fp], s)) ∧
    (c_slurm_auth_free (some c) none = .ok () []) ∧
    (∀ buf, c_slurm_auth_pack (some c) none buf = .ok () []) ∧
    (∀ fp, c_slurm_auth_print (some c) none fp = .ok () []) := by
  refine ⟨?_, ?_, ?_, ?_, ?_, ?_, ?_, ?_, ?_, ?_, ?_, ?_⟩
  · simp [g_slurm_auth_free, hg, h1]
  · intro secs; simp [g_slurm_auth_activate, hg, h2]
  · simp [g_slurm_auth_verify, hg, h3]
  · simp [g_slurm_auth_get_uid, hg, h4]
  · simp [g_slurm_auth_get_gid, hg, h5]
  · intro buf; simp [g_slurm_auth_pack, hg, h6]
  · simp [g_slurm_auth_pack, hg, h6]
  · intro buf; simp [g_slurm_auth_unpack, hg, h7]
  · intro fp; simp [g_slurm_auth_print, hg, h8]
  · rfl
  · intro buf; cases buf <;> rfl
  · intro fp; cases fp <;> rfl

/-- Witness for C10: over the initialized state `sFull` (full table
`opsFull`), the ambient `free` forwards the NULL credential to the
mechanism while the explicit-context `free` no-ops on it. -/
theorem C10_ambient_forwards_witness :
    sFull.g_context = some ctxFull ∧
    (g_slurm_auth_free renv8 cenv0 sFull none = (.ok () [.free none], sFull)) ∧
    (c_slurm_auth_free (some ctxFull) none = .ok () []) :=
  ⟨rfl,
   (C10_ambient_forwards_null_arguments renv8 cenv0 sFull ctxFull
     (fun _ => ()) (fun _ _ => SLURM_SUCCESS) (fun _ => SLURM_SUCCESS)
     (fun _ => 1000) (fun _ => 1000) (fun _ _ => ())
     (fun _ _ => SLURM_SUCCESS) (fun _ _ => ())
     rfl rfl rfl rfl rfl rfl rfl rfl rfl).1,
   (C10_ambient_forwards_null_arguments renv8 cenv0 sFull ctxFull
     (fun _ => ()) (fun _ _ => SLURM_SUCCESS) (fun _ => SLURM_SUCCESS)
     (fun _ => 1000) (fun _ => 1000) (fun _ _ => ())
     (fun _ _ => SLURM_SUCCESS) (fun _ _ => ())
     rfl rfl rfl rfl rfl rfl rfl rfl rfl).2.2.2.2.2.2.2.2.2.1⟩
